import Mathlib

/-!
Shallow embedding of the quantitative core of the SEC fraud-analyzer
repository (`include/sec_analyzer/types.h`, `src/models/*.cpp`,
`src/analyzer.cpp`).

Modelling conventions:
* C++ `double` values are modelled as exact rationals `ℚ`.  Every constant
  appearing in the source is a decimal literal, so it is represented exactly.
  The single genuinely transcendental quantity in the core — the Beneish
  model's logistic manipulation probability, `1/(1+exp(-(m+2.22)))` — is
  modelled over `ℝ` with `Real.exp`.  Consequently the Beneish result's
  `risk_score` field and the aggregator's composite score live in `ℝ`,
  everything else in `ℚ`.
* `std::clamp(x, lo, hi)` is `min hi (max lo x)`.
* Fallible C++ state (the analyzer's `last_error_` assignment on
  insufficient data) is modelled by an explicit `Option String` value.
* Vectors become `List`s; index loops over adjacent elements become
  structural recursion over adjacent pairs; counting loops become
  `List.countP`.
-/

namespace SecAnalyzer

/-- `std::clamp(x, lo, hi)` for rationals (`lo ≤ hi` at every call site). -/
def clampQ (x lo hi : ℚ) : ℚ := min hi (max lo x)

/-- The near-zero tolerance `1e-10` used by every safe-division guard. -/
def EPS : ℚ := 1 / 10 ^ 10

/- ## Data model (`include/sec_analyzer/types.h`) -/

inductive RiskLevel
  | low
  | moderate
  | elevated
  | high
  | critical
deriving DecidableEq, Repr

inductive TrendDirection
  | improving
  | stable
  | declining
deriving DecidableEq, Repr

/-- Numeric rank of a risk level, for stating monotonicity
(the C++ enum's underlying value in declaration order). -/
def RiskLevel.rank : RiskLevel → ℕ
  | .low => 0
  | .moderate => 1
  | .elevated => 2
  | .high => 3
  | .critical => 4

/-- `RiskWeights` with the defaults from `types.h`. -/
structure RiskWeights where
  beneish : ℚ := 3 / 10
  altman : ℚ := 25 / 100
  piotroski : ℚ := 15 / 100
  fraud_triangle : ℚ := 15 / 100
  benford : ℚ := 5 / 100
  red_flags : ℚ := 1 / 10
deriving DecidableEq, Repr

structure BalanceSheet where
  total_assets : ℚ := 0
  current_assets : ℚ := 0
  cash : ℚ := 0
  accounts_receivable : ℚ := 0
  inventory : ℚ := 0
  ppe : ℚ := 0
  goodwill : ℚ := 0
  intangible_assets : ℚ := 0
  total_liabilities : ℚ := 0
  current_liabilities : ℚ := 0
  accounts_payable : ℚ := 0
  long_term_debt : ℚ := 0
  total_equity : ℚ := 0
  retained_earnings : ℚ := 0
  shares_outstanding : ℚ := 0
deriving DecidableEq, Repr

structure IncomeStatement where
  revenue : ℚ := 0
  cost_of_revenue : ℚ := 0
  gross_profit : ℚ := 0
  operating_expenses : ℚ := 0
  rd_expense : ℚ := 0
  sga_expense : ℚ := 0
  depreciation : ℚ := 0
  operating_income : ℚ := 0
  interest_expense : ℚ := 0
  net_income : ℚ := 0
  eps : ℚ := 0
deriving DecidableEq, Repr

structure CashFlowStatement where
  operating_cash_flow : ℚ := 0
  depreciation_amortization : ℚ := 0
  accounts_receivable_change : ℚ := 0
  inventory_change : ℚ := 0
  accounts_payable_change : ℚ := 0
  investing_cash_flow : ℚ := 0
  capital_expenditures : ℚ := 0
  financing_cash_flow : ℚ := 0
  dividends_paid : ℚ := 0
  stock_buybacks : ℚ := 0
  net_change_in_cash : ℚ := 0
deriving DecidableEq, Repr

/-- One reporting period (`FinancialData` in `types.h`); the filing
metadata fields (strings and dates, unused by the analysis core)
are omitted. -/
structure FinancialData where
  balance_sheet : BalanceSheet := {}
  income_statement : IncomeStatement := {}
  cash_flow : CashFlowStatement := {}
  is_valid : Bool := false
deriving DecidableEq, Repr

namespace BalanceSheet

def working_capital (b : BalanceSheet) : ℚ :=
  b.current_assets - b.current_liabilities

def debt_ratio (b : BalanceSheet) : ℚ :=
  if b.total_assets > 0 then b.total_liabilities / b.total_assets else 0

end BalanceSheet

namespace IncomeStatement

def gross_margin (s : IncomeStatement) : ℚ :=
  if s.revenue > 0 then s.gross_profit / s.revenue else 0

def operating_margin (s : IncomeStatement) : ℚ :=
  if s.revenue > 0 then s.operating_income / s.revenue else 0

def net_margin (s : IncomeStatement) : ℚ :=
  if s.revenue > 0 then s.net_income / s.revenue else 0

end IncomeStatement

/- ## Altman Z-score model (`src/models/altman.cpp`) -/

structure AltmanResult where
  z_score : ℚ := 0
  x1 : ℚ := 0
  x2 : ℚ := 0
  x3 : ℚ := 0
  x4 : ℚ := 0
  x5 : ℚ := 0
  bankruptcy_probability : ℚ := 0
  risk_score : ℚ := 0
  zone : String := ""
deriving DecidableEq, Repr

namespace AltmanModel

/-- `AltmanModel::safe_divide` (header default argument is `0.0`;
every call site in `altman.cpp` relies on that default, so the
default is passed explicitly at each use below). -/
def safe_divide (num denom default_val : ℚ) : ℚ :=
  if |denom| < EPS then default_val else num / denom

def calculate_x1 (data : FinancialData) : ℚ :=
  safe_divide (data.balance_sheet.current_assets - data.balance_sheet.current_liabilities)
    data.balance_sheet.total_assets 0

def calculate_x2 (data : FinancialData) : ℚ :=
  safe_divide data.balance_sheet.retained_earnings data.balance_sheet.total_assets 0

def calculate_x3 (data : FinancialData) : ℚ :=
  safe_divide data.income_statement.operating_income data.balance_sheet.total_assets 0

def calculate_x4 (data : FinancialData) (market_cap : ℚ) : ℚ :=
  safe_divide (if market_cap > 0 then market_cap else data.balance_sheet.total_equity)
    data.balance_sheet.total_liabilities 0

def calculate_x5 (data : FinancialData) : ℚ :=
  safe_divide data.income_statement.revenue data.balance_sheet.total_assets 0

def SAFE_THRESHOLD : ℚ := 299 / 100
def DISTRESS_THRESHOLD : ℚ := 181 / 100

def get_zone (z_score : ℚ) : String :=
  if z_score > SAFE_THRESHOLD then "Safe"
  else if z_score > DISTRESS_THRESHOLD then "Gray"
  else "Distress"

/-- the fixed score-band lookup table for the bankruptcy probability -/
def score_to_probability (z_score : ℚ) : ℚ :=
  if z_score > 3 then 1 / 100
  else if z_score > 27 / 10 then 5 / 100
  else if z_score > 24 / 10 then 10 / 100
  else if z_score > 2 then 20 / 100
  else if z_score > 18 / 10 then 35 / 100
  else if z_score > 15 / 10 then 50 / 100
  else if z_score > 12 / 10 then 65 / 100
  else if z_score > 1 then 75 / 100
  else if z_score > 5 / 10 then 85 / 100
  else 95 / 100

def probability_to_risk (probability : ℚ) : ℚ :=
  clampQ probability 0 1

/-- `AltmanModel::calculate` (Variant A, public-company form).
`market_cap` has C++ default argument `0`; the analyzer calls it
with that default. -/
def calculate (data : FinancialData) (market_cap : ℚ) : AltmanResult :=
  let x1 := calculate_x1 data
  let x2 := calculate_x2 data
  let x3 := calculate_x3 data
  let x4 := calculate_x4 data market_cap
  let x5 := calculate_x5 data
  let z := (12 / 10) * x1 + (14 / 10) * x2 + (33 / 10) * x3 + (6 / 10) * x4 + 1 * x5
  { z_score := z
    x1 := x1, x2 := x2, x3 := x3, x4 := x4, x5 := x5
    zone := get_zone z
    bankruptcy_probability := score_to_probability z
    risk_score := probability_to_risk (score_to_probability z) }

end AltmanModel

namespace AltmanZPrimeModel

def SAFE_THRESHOLD : ℚ := 260 / 100
def DISTRESS_THRESHOLD : ℚ := 110 / 100

/-- `AltmanZPrimeModel::calculate` (Variant B, non-manufacturing form).
Note: the source guards each ratio with `denominator > 0 ? num/denom : 0`,
not with `AltmanModel::safe_divide`. -/
def calculate (data : FinancialData) : AltmanResult :=
  let wc := data.balance_sheet.current_assets - data.balance_sheet.current_liabilities
  let x1 := if data.balance_sheet.total_assets > 0 then wc / data.balance_sheet.total_assets else 0
  let x2 := if data.balance_sheet.total_assets > 0 then
      data.balance_sheet.retained_earnings / data.balance_sheet.total_assets else 0
  let x3 := if data.balance_sheet.total_assets > 0 then
      data.income_statement.operating_income / data.balance_sheet.total_assets else 0
  let x4 := if data.balance_sheet.total_liabilities > 0 then
      data.balance_sheet.total_equity / data.balance_sheet.total_liabilities else 0
  let z := (656 / 100) * x1 + (326 / 100) * x2 + (672 / 100) * x3 + (105 / 100) * x4
  { z_score := z
    x1 := x1, x2 := x2, x3 := x3, x4 := x4, x5 := 0
    zone :=
      if z > SAFE_THRESHOLD then "Safe"
      else if z > DISTRESS_THRESHOLD then "Gray"
      else "Distress"
    bankruptcy_probability := AltmanModel.score_to_probability z
    risk_score := clampQ (AltmanModel.score_to_probability z) 0 1 }

end AltmanZPrimeModel

/- ## Benford digit-distribution model (`src/models/benford.cpp`) -/

structure BenfordResult where
  expected_distribution : List ℚ := []
  actual_distribution : List ℚ := []
  chi_square : ℚ := 0
  mad : ℚ := 0
  deviation_percent : ℚ := 0
  is_suspicious : Bool := false
  anomalies : List String := []
deriving DecidableEq, Repr

namespace BenfordModel

def MAD_CLOSE_CONFORMITY : ℚ := 6 / 1000
def MAD_ACCEPTABLE : ℚ := 12 / 1000
def MAD_MARGINALLY_ACCEPTABLE : ℚ := 15 / 1000

def EXPECTED : List ℚ :=
  [301/1000, 176/1000, 125/1000, 97/1000, 79/1000, 67/1000, 58/1000, 51/1000, 46/1000]

def get_expected_distribution : List ℚ := EXPECTED

/-- `BenfordModel::is_valid_value`: finite and `|value| ≥ 1`.  Rationals are
always finite, so the `std::isfinite` conjunct is vacuous here. -/
def is_valid_value (value : ℚ) : Bool := 1 ≤ |value|

/-- `BenfordModel::extract_first_digit`.  The C++ normalization loop
(`while (v >= 10) v /= 10; while (v < 1) v *= 10;` followed by integer
truncation) computes, for `|value| ≥ 1`, the leading decimal digit, which
equals the leading digit of `⌊|value|⌋`, i.e. `m / 10 ^ (Nat.log 10 m)`. -/
def extract_first_digit (value : ℚ) : ℕ :=
  if is_valid_value value then
    let m := (⌊|value|⌋).toNat
    let digit := m / 10 ^ (Nat.log 10 m)
    if 1 ≤ digit ∧ digit ≤ 9 then digit else 0
  else 0

/-- count of values whose extracted first digit is `d` -/
def digit_count (values : List ℚ) (d : ℕ) : ℕ :=
  values.countP (fun v => extract_first_digit v = d)

/-- the loop's `total`: values contributing a digit in `1..9` -/
def digit_total (values : List ℚ) : ℕ :=
  values.countP (fun v => extract_first_digit v ≠ 0)

/-- `BenfordModel::calculate_actual_distribution`: relative frequency of each
digit `1..9`, or all zeros when no value contributed. -/
def calculate_actual_distribution (values : List ℚ) : List ℚ :=
  (List.range 9).map (fun i =>
    if 0 < digit_total values then
      (digit_count values (i + 1) : ℚ) / (digit_total values : ℚ)
    else 0)

/-- `BenfordModel::calculate_chi_square` (expected-count basis). -/
def calculate_chi_square (expected actual : List ℚ) (n : ℕ) : ℚ :=
  ((expected.zip actual).map (fun p =>
    let exp_count := p.1 * (n : ℚ)
    let act_count := p.2 * (n : ℚ)
    if 0 < exp_count then (act_count - exp_count) ^ 2 / exp_count else 0)).sum

/-- `BenfordModel::calculate_mad`: mean absolute deviation over the 9 buckets. -/
def calculate_mad (expected actual : List ℚ) : ℚ :=
  ((expected.zip actual).map (fun p => |p.2 - p.1|)).sum / 9

/-- The per-digit z-test condition `se > 0 && |p_hat - p| / se > 2.576` with
`se = sqrt(p (1-p) / n)`, restated without the square root by squaring both
sides (equivalent since both sides are nonnegative): `se > 0 ↔ p(1-p)/n > 0`
and `|p_hat-p|/se > 2.576 ↔ (p_hat-p)² > 2.576² · p(1-p)/n`. -/
def suspicious_digit_test (p p_hat : ℚ) (n : ℕ) : Bool :=
  let v := p * (1 - p) / (n : ℚ)
  decide (0 < v) && decide ((2576 / 1000 : ℚ) ^ 2 * v < (p_hat - p) ^ 2)

/-- `BenfordModel::identify_suspicious_digits`. -/
def identify_suspicious_digits (expected actual : List ℚ) (n : ℕ) : List ℕ :=
  ((List.range 9).filter (fun i =>
    suspicious_digit_test (expected.getD i 0) (actual.getD i 0) n)).map (fun i => i + 1)

/-- `BenfordModel::is_suspicious` (the static classifier on MAD). -/
def is_suspicious_mad (mad : ℚ) : Bool := mad > MAD_MARGINALLY_ACCEPTABLE

def get_conformity_level (mad : ℚ) : String :=
  if mad ≤ MAD_CLOSE_CONFORMITY then "Close Conformity"
  else if mad ≤ MAD_ACCEPTABLE then "Acceptable Conformity"
  else if mad ≤ MAD_MARGINALLY_ACCEPTABLE then "Marginally Acceptable"
  else "Nonconformity"

/-- `BenfordModel::mad_to_risk`: `std::clamp(mad / 0.02, 0.0, 1.0)`. -/
def mad_to_risk (mad : ℚ) : ℚ := clampQ (mad / (2 / 100)) 0 1

/-- `BenfordModel::calculate`.  When `n = 0` the statistics keep their
`BenfordResult` defaults (`chi_square = 0`, `mad = 0`, no anomalies) and
`is_suspicious` is evaluated on the default `mad = 0`, exactly as in the
source where the `if (n > 0)` block is skipped. -/
def calculate (values : List ℚ) : BenfordResult :=
  let expected := get_expected_distribution
  let actual := calculate_actual_distribution values
  let n := values.countP (fun v => is_valid_value v)
  if 0 < n then
    let mad := calculate_mad expected actual
    { expected_distribution := expected
      actual_distribution := actual
      chi_square := calculate_chi_square expected actual n
      mad := mad
      deviation_percent := mad * 100
      is_suspicious := is_suspicious_mad mad
      anomalies := (identify_suspicious_digits expected actual n).map
        (fun d => "Digit " ++ toString d ++ " significantly deviates from expected") }
  else
    { expected_distribution := expected
      actual_distribution := actual
      is_suspicious := is_suspicious_mad 0 }

end BenfordModel

/- ## Beneish M-score model (`src/models/beneish.cpp`) -/

/-- `BeneishResult`.  `risk_score` is the clamped logistic manipulation
probability, the one transcendental quantity of the core, hence `ℝ`. -/
structure BeneishResult where
  m_score : ℚ := 0
  dsri : ℚ := 0
  gmi : ℚ := 0
  aqi : ℚ := 0
  sgi : ℚ := 0
  depi : ℚ := 0
  sgai : ℚ := 0
  lvgi : ℚ := 0
  tata : ℚ := 0
  risk_score : ℝ := 0
  likely_manipulator : Bool := false
  zone : String := ""
  flags : List String := []

namespace BeneishModel

def THRESHOLD : ℚ := -222 / 100

/-- `BeneishModel::safe_divide` (header default argument is `1.0`; call
sites relying on the default pass `1` explicitly below, the two that
override it pass `0`). -/
def safe_divide (num denom default_val : ℚ) : ℚ :=
  if |denom| < EPS then default_val else num / denom

def calculate_dsri (current prior : FinancialData) : ℚ :=
  let cr := safe_divide current.balance_sheet.accounts_receivable
    current.income_statement.revenue 1
  let pr := safe_divide prior.balance_sheet.accounts_receivable
    prior.income_statement.revenue 1
  safe_divide cr pr 1

def calculate_gmi (current prior : FinancialData) : ℚ :=
  safe_divide (IncomeStatement.gross_margin prior.income_statement)
    (IncomeStatement.gross_margin current.income_statement) 1

def calculate_aqi (current prior : FinancialData) : ℚ :=
  let current_aq := 1 - safe_divide
    (current.balance_sheet.current_assets + current.balance_sheet.ppe)
    current.balance_sheet.total_assets 0
  let prior_aq := 1 - safe_divide
    (prior.balance_sheet.current_assets + prior.balance_sheet.ppe)
    prior.balance_sheet.total_assets 0
  safe_divide current_aq prior_aq 1

def calculate_sgi (current prior : FinancialData) : ℚ :=
  safe_divide current.income_statement.revenue prior.income_statement.revenue 1

def calculate_depi (current prior : FinancialData) : ℚ :=
  let current_rate := safe_divide current.income_statement.depreciation
    (current.income_statement.depreciation + current.balance_sheet.ppe) 1
  let prior_rate := safe_divide prior.income_statement.depreciation
    (prior.income_statement.depreciation + prior.balance_sheet.ppe) 1
  safe_divide prior_rate current_rate 1

def calculate_sgai (current prior : FinancialData) : ℚ :=
  let cr := safe_divide current.income_statement.sga_expense
    current.income_statement.revenue 1
  let pr := safe_divide prior.income_statement.sga_expense
    prior.income_statement.revenue 1
  safe_divide cr pr 1

def calculate_lvgi (current prior : FinancialData) : ℚ :=
  let current_lev := safe_divide current.balance_sheet.total_liabilities
    current.balance_sheet.total_assets 1
  let prior_lev := safe_divide prior.balance_sheet.total_liabilities
    prior.balance_sheet.total_assets 1
  safe_divide current_lev prior_lev 1

def calculate_tata (current : FinancialData) : ℚ :=
  safe_divide (current.income_statement.net_income - current.cash_flow.operating_cash_flow)
    current.balance_sheet.total_assets 0

def is_likely_manipulator (m_score : ℚ) : Bool := m_score > THRESHOLD

def get_zone (m_score : ℚ) : String :=
  if m_score > -178 / 100 then "High Risk"
  else if m_score > THRESHOLD then "Elevated Risk"
  else if m_score > -250 / 100 then "Moderate Risk"
  else "Low Risk"

/-- `BeneishModel::score_to_probability`: logistic transform centered at
`-2.22`, the only use of `std::exp` in the core. -/
noncomputable def score_to_probability (m_score : ℚ) : ℝ :=
  1 / (1 + Real.exp (-((m_score : ℝ) + 222 / 100)))

noncomputable def probability_to_risk (probability : ℝ) : ℝ :=
  min 1 (max 0 probability)

def generate_flags (result : BeneishResult) : List String :=
  (if result.dsri > 1465 / 1000 then
    ["High Days Sales in Receivables - potential revenue manipulation"] else [])
  ++ (if result.gmi > 1193 / 1000 then
    ["Declining gross margins - pressure to manipulate"] else [])
  ++ (if result.aqi > 1254 / 1000 then
    ["Increasing non-current assets - potential capitalization abuse"] else [])
  ++ (if result.sgi > 1607 / 1000 then
    ["Rapid sales growth - higher manipulation risk"] else [])
  ++ (if result.tata > 18 / 1000 then
    ["High accruals relative to assets - earnings quality concern"] else [])
  ++ (if result.lvgi > 1111 / 1000 then
    ["Increasing leverage - financial pressure"] else [])

/-- `BeneishModel::calculate`. -/
noncomputable def calculate (current prior : FinancialData) : BeneishResult :=
  let dsri := calculate_dsri current prior
  let gmi := calculate_gmi current prior
  let aqi := calculate_aqi current prior
  let sgi := calculate_sgi current prior
  let depi := calculate_depi current prior
  let sgai := calculate_sgai current prior
  let lvgi := calculate_lvgi current prior
  let tata := calculate_tata current
  let m := -484 / 100
    + (920 / 1000) * dsri
    + (528 / 1000) * gmi
    + (404 / 1000) * aqi
    + (892 / 1000) * sgi
    + (115 / 1000) * depi
    + (-172 / 1000) * sgai
    + (4679 / 1000) * tata
    + (-327 / 1000) * lvgi
  let base : BeneishResult :=
    { m_score := m
      dsri := dsri, gmi := gmi, aqi := aqi, sgi := sgi
      depi := depi, sgai := sgai, lvgi := lvgi, tata := tata
      risk_score := probability_to_risk (score_to_probability m)
      likely_manipulator := is_likely_manipulator m
      zone := get_zone m }
  { base with flags := generate_flags base }

end BeneishModel

/- ## Piotroski F-score model (`src/models/piotroski.cpp`) -/

structure PiotroskiResult where
  f_score : ℕ := 0
  roa_positive : Bool := false
  cfo_positive : Bool := false
  roa_increasing : Bool := false
  cfo_greater_than_ni : Bool := false
  leverage_decreasing : Bool := false
  current_ratio_increasing : Bool := false
  no_dilution : Bool := false
  gross_margin_increasing : Bool := false
  asset_turnover_increasing : Bool := false
  risk_score : ℚ := 0
  interpretation : String := ""
deriving DecidableEq, Repr

namespace PiotroskiModel

def calculate_roa (data : FinancialData) : ℚ :=
  if |data.balance_sheet.total_assets| < EPS then 0
  else data.income_statement.net_income / data.balance_sheet.total_assets

def calculate_leverage (data : FinancialData) : ℚ :=
  if |data.balance_sheet.total_assets| < EPS then 0
  else data.balance_sheet.long_term_debt / data.balance_sheet.total_assets

def calculate_current_ratio (data : FinancialData) : ℚ :=
  if |data.balance_sheet.current_liabilities| < EPS then 0
  else data.balance_sheet.current_assets / data.balance_sheet.current_liabilities

def calculate_gross_margin (data : FinancialData) : ℚ :=
  if |data.income_statement.revenue| < EPS then 0
  else data.income_statement.gross_profit / data.income_statement.revenue

def calculate_asset_turnover (data : FinancialData) : ℚ :=
  if |data.balance_sheet.total_assets| < EPS then 0
  else data.income_statement.revenue / data.balance_sheet.total_assets

def check_roa_positive (current : FinancialData) : Bool :=
  current.income_statement.net_income > 0

def check_cfo_positive (current : FinancialData) : Bool :=
  current.cash_flow.operating_cash_flow > 0

def check_roa_increasing (current prior : FinancialData) : Bool :=
  calculate_roa current > calculate_roa prior

def check_quality_of_earnings (current : FinancialData) : Bool :=
  current.cash_flow.operating_cash_flow > current.income_statement.net_income

def check_leverage_decreasing (current prior : FinancialData) : Bool :=
  calculate_leverage current < calculate_leverage prior

def check_liquidity_increasing (current prior : FinancialData) : Bool :=
  calculate_current_ratio current > calculate_current_ratio prior

def check_no_dilution (current prior : FinancialData) : Bool :=
  current.balance_sheet.shares_outstanding ≤ prior.balance_sheet.shares_outstanding

def check_gross_margin_increasing (current prior : FinancialData) : Bool :=
  calculate_gross_margin current > calculate_gross_margin prior

def check_asset_turnover_increasing (current prior : FinancialData) : Bool :=
  calculate_asset_turnover current > calculate_asset_turnover prior

def get_interpretation (f_score : ℕ) : String :=
  if f_score ≥ 7 then "Strong"
  else if f_score > 3 then "Moderate"
  else "Weak"

def score_to_risk (f_score : ℕ) : ℚ :=
  clampQ (1 - (f_score : ℚ) / 9) 0 1

/-- `PiotroskiModel::calculate`. -/
def calculate (current prior : FinancialData) : PiotroskiResult :=
  let b1 := check_roa_positive current
  let b2 := check_cfo_positive current
  let b3 := check_roa_increasing current prior
  let b4 := check_quality_of_earnings current
  let b5 := check_leverage_decreasing current prior
  let b6 := check_liquidity_increasing current prior
  let b7 := check_no_dilution current prior
  let b8 := check_gross_margin_increasing current prior
  let b9 := check_asset_turnover_increasing current prior
  let f := (if b1 then 1 else 0) + (if b2 then 1 else 0) + (if b3 then 1 else 0)
    + (if b4 then 1 else 0) + (if b5 then 1 else 0) + (if b6 then 1 else 0)
    + (if b7 then 1 else 0) + (if b8 then 1 else 0) + (if b9 then 1 else 0)
  { f_score := f
    roa_positive := b1, cfo_positive := b2, roa_increasing := b3
    cfo_greater_than_ni := b4, leverage_decreasing := b5
    current_ratio_increasing := b6, no_dilution := b7
    gross_margin_increasing := b8, asset_turnover_increasing := b9
    interpretation := get_interpretation f
    risk_score := score_to_risk f }

end PiotroskiModel

/- ## Fraud-triangle heuristic model (`src/models/fraud_triangle.cpp`) -/

structure FraudTriangleResult where
  pressure_score : ℚ := 0
  opportunity_score : ℚ := 0
  rationalization_score : ℚ := 0
  overall_risk : ℚ := 0
  risk_level : RiskLevel := .low
  pressure_indicators : List String := []
  opportunity_indicators : List String := []
  rationalization_indicators : List String := []
deriving DecidableEq, Repr

namespace FraudTriangleModel

def normalize_score (raw_score max_indicators : ℚ) : ℚ :=
  if max_indicators ≤ 0 then 0 else clampQ (raw_score / max_indicators) 0 1

/-- The loop `for i in 1..n-1: if f[i].revenue < f[i-1].revenue: count++`
as structural recursion over adjacent pairs (`f0` has the lower index). -/
def count_declining_revenue : List FinancialData → ℕ
  | f0 :: f1 :: rest =>
    (if f1.income_statement.revenue < f0.income_statement.revenue then 1 else 0)
      + count_declining_revenue (f1 :: rest)
  | _ => 0

/-- `FraudTriangleModel::check_declining_revenue`:
`size < 2 → false`, else `declining_periods >= size/2` (integer division). -/
def check_declining_revenue (financials : List FinancialData) : Bool :=
  if financials.length < 2 then false
  else financials.length / 2 ≤ count_declining_revenue financials

def count_declining_margins : List FinancialData → ℕ
  | f0 :: f1 :: rest =>
    (if IncomeStatement.gross_margin f1.income_statement
        < IncomeStatement.gross_margin f0.income_statement then 1 else 0)
      + count_declining_margins (f1 :: rest)
  | _ => 0

def check_declining_margins (financials : List FinancialData) : Bool :=
  if financials.length < 2 then false
  else financials.length / 2 ≤ count_declining_margins financials

def check_high_leverage (data : FinancialData) : Bool :=
  BalanceSheet.debt_ratio data.balance_sheet > 6 / 10

def check_negative_cash_flow (data : FinancialData) : Bool :=
  data.cash_flow.operating_cash_flow < 0

def check_earnings_miss_pattern (financials : List FinancialData) : Bool :=
  if financials.length < 3 then false
  else 2 ≤ financials.countP (fun f =>
    let margin := IncomeStatement.net_margin f.income_statement
    decide (margin > 0) && decide (margin < 2 / 100))

def detect_pressure_indicators (financials : List FinancialData) : List String :=
  match financials with
  | [] => []
  | f0 :: _ =>
    (if check_declining_revenue financials then ["Declining revenue trend"] else [])
    ++ (if check_declining_margins financials then ["Declining profit margins"] else [])
    ++ (if check_high_leverage f0 then ["High leverage ratio"] else [])
    ++ (if check_negative_cash_flow f0 then ["Negative operating cash flow"] else [])
    ++ (if check_earnings_miss_pattern financials then
      ["Pattern of barely meeting earnings targets"] else [])

def calculate_pressure_score (financials : List FinancialData) : ℚ :=
  normalize_score ((detect_pressure_indicators financials).length : ℚ) 5

def check_complex_structure (financials : List FinancialData) : Bool :=
  match financials with
  | [] => false
  | f0 :: _ =>
    if f0.balance_sheet.total_assets > 0 then
      (f0.balance_sheet.goodwill + f0.balance_sheet.intangible_assets)
        / f0.balance_sheet.total_assets > 3 / 10
    else false

/-- adjacent-pair scan: `f0` is `financials[i-1]` (base of the relative
change), `f1` is `financials[i]`. -/
def check_unusual_transactions : List FinancialData → Bool
  | f0 :: f1 :: rest =>
    (let ar_change := if f0.balance_sheet.accounts_receivable > 0 then
        (f1.balance_sheet.accounts_receivable - f0.balance_sheet.accounts_receivable)
          / f0.balance_sheet.accounts_receivable
      else 0
     let inv_change := if f0.balance_sheet.inventory > 0 then
        (f1.balance_sheet.inventory - f0.balance_sheet.inventory)
          / f0.balance_sheet.inventory
      else 0
     decide (ar_change > 5 / 10) || decide (inv_change > 5 / 10))
    || check_unusual_transactions (f1 :: rest)
  | _ => false

/-- adjacent-pair scan: the source takes `curr` from `financials[i]` and
`prior` from `financials[i-1]`. -/
def check_estimate_changes : List FinancialData → Bool
  | f0 :: f1 :: rest =>
    (let curr_depr_rate := if f1.balance_sheet.ppe > 0 then
        f1.income_statement.depreciation / f1.balance_sheet.ppe
      else 0
     let prior_depr_rate := if f0.balance_sheet.ppe > 0 then
        f0.income_statement.depreciation / f0.balance_sheet.ppe
      else 0
     decide (prior_depr_rate > 0)
       && decide (|curr_depr_rate - prior_depr_rate| / prior_depr_rate > 3 / 10))
    || check_estimate_changes (f1 :: rest)
  | _ => false

def detect_opportunity_indicators (financials : List FinancialData) : List String :=
  (if check_complex_structure financials then
    ["Complex organizational structure (high intangibles)"] else [])
  ++ (if check_unusual_transactions financials then
    ["Unusual changes in receivables or inventory"] else [])
  ++ (if check_estimate_changes financials then
    ["Significant changes in accounting estimates"] else [])

def calculate_opportunity_score (financials : List FinancialData) : ℚ :=
  normalize_score ((detect_opportunity_indicators financials).length : ℚ) 3

/-- `FraudTriangleModel::check_aggressive_accounting`: some period with
positive net income, positive operating cash flow, and net income more
than 1.5 times operating cash flow (the `financials.empty()` guard is
subsumed by `List.any [] = false`). -/
def check_aggressive_accounting (financials : List FinancialData) : Bool :=
  financials.any (fun f =>
    decide (f.income_statement.net_income > 0)
      && decide (f.cash_flow.operating_cash_flow > 0)
      && decide (f.income_statement.net_income
        > f.cash_flow.operating_cash_flow * (15 / 10)))

def check_boundary_cases (financials : List FinancialData) : Bool :=
  2 ≤ financials.countP (fun f =>
    let margin := IncomeStatement.net_margin f.income_statement
    decide (margin > 0) && decide (margin < 1 / 100))

def detect_rationalization_indicators (financials : List FinancialData) : List String :=
  (if check_aggressive_accounting financials then
    ["Aggressive accounting (income >> cash flow)"] else [])
  ++ (if check_boundary_cases financials then
    ["Earnings consistently at boundary levels"] else [])

def calculate_rationalization_score (financials : List FinancialData) : ℚ :=
  normalize_score ((detect_rationalization_indicators financials).length : ℚ) 2

def determine_risk_level (overall_score : ℚ) : RiskLevel :=
  if overall_score ≥ 7 / 10 then .high
  else if overall_score ≥ 4 / 10 then .moderate
  else if overall_score ≥ 2 / 10 then .elevated
  else .low

/-- `FraudTriangleModel::calculate`. -/
def calculate (financials : List FinancialData) : FraudTriangleResult :=
  let p := calculate_pressure_score financials
  let o := calculate_opportunity_score financials
  let r := calculate_rationalization_score financials
  let overall := (35 / 100) * p + (35 / 100) * o + (30 / 100) * r
  { pressure_score := p
    opportunity_score := o
    rationalization_score := r
    overall_risk := overall
    risk_level := determine_risk_level overall
    pressure_indicators := detect_pressure_indicators financials
    opportunity_indicators := detect_opportunity_indicators financials
    rationalization_indicators := detect_rationalization_indicators financials }

end FraudTriangleModel

/- ## Composite aggregator (`src/analyzer.cpp`) -/

structure RedFlag where
  type : String := ""
  title : String := ""
  description : String := ""
  severity : RiskLevel := .moderate
  source : String := ""
  confidence : ℚ := 0
deriving DecidableEq, Repr

structure TrendAnalysis where
  revenue_trend : TrendDirection := .stable
  income_trend : TrendDirection := .stable
  cash_flow_trend : TrendDirection := .stable
  debt_trend : TrendDirection := .stable
  margin_trend : TrendDirection := .stable
  observations : List String := []
deriving DecidableEq, Repr

/-- `AnalysisResult`: the company metadata, filing list, timestamp and
version strings are omitted (pure metadata, unused by the analysis). -/
structure AnalysisResult where
  filings_analyzed : ℕ := 0
  beneish : Option BeneishResult := none
  altman : Option AltmanResult := none
  piotroski : Option PiotroskiResult := none
  fraud_triangle : Option FraudTriangleResult := none
  benford : Option BenfordResult := none
  composite_risk_score : ℝ := 0
  overall_risk_level : RiskLevel := .low
  risk_summary : String := ""
  recommendation : String := ""
  red_flags : List RedFlag := []
  trends : TrendAnalysis := {}

namespace FraudAnalyzer

/-- `FraudAnalyzer::detect_red_flags`. -/
def detect_red_flags (result : AnalysisResult) : List RedFlag :=
  (match result.beneish with
   | some b =>
     if b.likely_manipulator then
       [{ type := "EARNINGS_MANIPULATION"
          title := "Beneish M-Score Above Threshold"
          description := "M-Score indicates potential earnings manipulation"
          severity := .high, source := "Beneish Model", confidence := 9 / 10 }]
     else []
   | none => [])
  ++ (match result.altman with
      | some a =>
        if a.z_score < 181 / 100 then
          [{ type := "BANKRUPTCY_RISK"
             title := "Altman Z-Score in Distress Zone"
             description := "High probability of bankruptcy within 2 years"
             severity := .high, source := "Altman Model", confidence := 85 / 100 }]
        else []
      | none => [])
  ++ (match result.piotroski with
      | some p =>
        if p.f_score ≤ 3 then
          [{ type := "WEAK_FUNDAMENTALS"
             title := "Low Piotroski F-Score"
             description := "Financial fundamentals indicate weakness"
             severity := .elevated, source := "Piotroski Model", confidence := 7 / 10 }]
        else []
      | none => [])
  ++ (match result.fraud_triangle with
      | some ft =>
        if ft.overall_risk > 6 / 10 then
          [{ type := "FRAUD_TRIANGLE"
             title := "High Fraud Triangle Risk"
             description := "Multiple fraud risk factors detected"
             severity := .high, source := "Fraud Triangle Model", confidence := 8 / 10 }]
        else []
      | none => [])
  ++ (match result.benford with
      | some bf =>
        if bf.is_suspicious then
          [{ type := "BENFORD_ANOMALY"
             title := "Benford's Law Deviation"
             description := "Unusual digit distribution in financial figures"
             severity := .elevated, source := "Benford Model", confidence := 65 / 100 }]
        else []
      | none => [])

/-- `FraudAnalyzer::analyze_trends`: compares `financials.front()` (recent)
with `financials.back()` (prior); only the revenue and income directions
are ever set, the other trend fields keep their `STABLE` default. -/
def analyze_trends (financials : List FinancialData) : TrendAnalysis :=
  match financials with
  | recent :: f1 :: rest =>
    let prior := (f1 :: rest).getLast (List.cons_ne_nil f1 rest)
    { revenue_trend :=
        if recent.income_statement.revenue
            > prior.income_statement.revenue * (105 / 100) then .improving
        else if recent.income_statement.revenue
            < prior.income_statement.revenue * (95 / 100) then .declining
        else .stable
      income_trend :=
        if recent.income_statement.net_income
            > prior.income_statement.net_income * (105 / 100) then .improving
        else if recent.income_statement.net_income
            < prior.income_statement.net_income * (95 / 100) then .declining
        else .stable }
  | _ => {}

/-- `FraudAnalyzer::extract_all_values`: five line items per period, in
sequence order. -/
def extract_all_values (financials : List FinancialData) : List ℚ :=
  financials.flatMap (fun f =>
    [f.income_statement.revenue,
     f.income_statement.net_income,
     f.balance_sheet.total_assets,
     f.balance_sheet.total_liabilities,
     f.cash_flow.operating_cash_flow])

/-- The running `score` accumulated by
`FraudAnalyzer::calculate_composite_score` before the final clamp.
The Benford contribution is `is_suspicious ? 0.8 : 0.2` — the model's
`mad_to_risk` is not consulted here. -/
noncomputable def composite_sum (w : RiskWeights) (result : AnalysisResult) : ℝ :=
  let s1 : ℝ := match result.beneish with
    | some b => 0 + (w.beneish : ℝ) * b.risk_score
    | none => 0
  let s2 := match result.altman with
    | some a => s1 + (w.altman : ℝ) * (a.risk_score : ℝ)
    | none => s1
  let s3 := match result.piotroski with
    | some p => s2 + (w.piotroski : ℝ) * (p.risk_score : ℝ)
    | none => s2
  let s4 := match result.fraud_triangle with
    | some ft => s3 + (w.fraud_triangle : ℝ) * (ft.overall_risk : ℝ)
    | none => s3
  let s5 := match result.benford with
    | some bf => s4 + (w.benford : ℝ) * (if bf.is_suspicious then (8 : ℝ) / 10 else 2 / 10)
    | none => s4
  s5 + (w.red_flags : ℝ) * min 1 ((result.red_flags.length : ℝ) / 5)

/-- `FraudAnalyzer::calculate_composite_score`:
`std::min(1.0, std::max(0.0, score))`. -/
noncomputable def calculate_composite_score (w : RiskWeights) (result : AnalysisResult) : ℝ :=
  min 1 (max 0 (composite_sum w result))

/-- `FraudAnalyzer::determine_risk_level`. -/
noncomputable def determine_risk_level (score : ℝ) : RiskLevel :=
  if score ≥ 8 / 10 then .critical
  else if score ≥ 6 / 10 then .high
  else if score ≥ 4 / 10 then .elevated
  else if score ≥ 2 / 10 then .moderate
  else .low

/-- `FraudAnalyzer::generate_recommendation` (keyed on the already-computed
overall risk level). -/
def generate_recommendation (result : AnalysisResult) : String :=
  match result.overall_risk_level with
  | .critical => "CRITICAL RISK: Multiple fraud indicators detected. Recommend immediate detailed investigation."
  | .high => "HIGH RISK: Significant fraud indicators present. Exercise extreme caution and conduct thorough due diligence."
  | .elevated => "ELEVATED RISK: Some concerning indicators detected. Recommend additional scrutiny of financial statements."
  | .moderate => "MODERATE RISK: Minor concerns noted. Standard due diligence procedures recommended."
  | .low => "LOW RISK: No significant fraud indicators detected. Financial statements appear consistent with expected patterns."

/-- `FraudAnalyzer::analyze_financials`.  The guard is
`financials.size() < 2` — the snapshots' `is_valid` flags are not
consulted.  When the guard fires the function returns the default-valued
result (all five model options unset). -/
noncomputable def analyze_financials (w : RiskWeights) (financials : List FinancialData) :
    AnalysisResult :=
  match financials with
  | f0 :: f1 :: rest =>
    let beneish := BeneishModel.calculate f0 f1
    let altman := AltmanModel.calculate f0 0
    let piotroski := PiotroskiModel.calculate f0 f1
    let fraud_triangle := FraudTriangleModel.calculate (f0 :: f1 :: rest)
    let benford := BenfordModel.calculate (extract_all_values (f0 :: f1 :: rest))
    let partial_result : AnalysisResult :=
      { filings_analyzed := (f0 :: f1 :: rest).length
        beneish := some beneish
        altman := some altman
        piotroski := some piotroski
        fraud_triangle := some fraud_triangle
        benford := some benford }
    let flagged := { partial_result with
      red_flags := detect_red_flags partial_result
      trends := analyze_trends (f0 :: f1 :: rest) }
    let score := calculate_composite_score w flagged
    let leveled := { flagged with
      composite_risk_score := score
      overall_risk_level := determine_risk_level score }
    { leveled with
      recommendation := generate_recommendation leveled
      risk_summary := "Analysis complete with " ++ toString leveled.red_flags.length
        ++ " red flags detected." }
  | _ => { filings_analyzed := financials.length }

/-- The `last_error_` assignment made by `analyze_financials`: the
insufficient-data condition signaled to the caller. -/
def analyze_error (financials : List FinancialData) : Option String :=
  if financials.length < 2 then some "Insufficient financial data for analysis" else none

end FraudAnalyzer

/- ## Spec-side definition used for the refinement comparison of the
composite-score formula -/

/-- Modelled from the spec's words (§4.6 step 4 with §4.5's
"Risk contribution = clamp(MAD/0.02, 0, 1)"): composite =
Σ(weight × risk contribution) over models that ran, with the
digit-distribution model contributing `mad_to_risk` of its MAD, plus
`weight_redflags × min(1, flag_count/5)`, clamped to `[0,1]`.  This
definition follows the SPEC sentence; it is compared against the
source-derived `FraudAnalyzer.calculate_composite_score`, which differs in
the Benford term (`is_suspicious ? 0.8 : 0.2`). -/
noncomputable def spec_composite_score_mad (w : RiskWeights) (result : AnalysisResult) : ℝ :=
  let s1 : ℝ := match result.beneish with
    | some b => 0 + (w.beneish : ℝ) * b.risk_score
    | none => 0
  let s2 := match result.altman with
    | some a => s1 + (w.altman : ℝ) * (a.risk_score : ℝ)
    | none => s1
  let s3 := match result.piotroski with
    | some p => s2 + (w.piotroski : ℝ) * (p.risk_score : ℝ)
    | none => s2
  let s4 := match result.fraud_triangle with
    | some ft => s3 + (w.fraud_triangle : ℝ) * (ft.overall_risk : ℝ)
    | none => s3
  let s5 := match result.benford with
    | some bf => s4 + (w.benford : ℝ) * (BenfordModel.mad_to_risk bf.mad : ℝ)
    | none => s4
  min 1 (max 0 (s5 + (w.red_flags : ℝ) * min 1 ((result.red_flags.length : ℝ) / 5)))

/- ## Concrete inputs used by counterexamples and witnesses -/

/-- an all-zero (default) reporting period; its `is_valid` flag is `false` -/
def zeroFD : FinancialData := {}

/-- weights selecting only the digit-distribution model -/
def benfordOnlyWeights : RiskWeights :=
  { beneish := 0, altman := 0, piotroski := 0, fraud_triangle := 0
    benford := 1, red_flags := 0 }

/-- the §8 bankruptcy-model scenario snapshot -/
def altmanScenarioFD : FinancialData :=
  { balance_sheet :=
      { total_assets := 1000
        current_assets := 600
        current_liabilities := 400
        retained_earnings := 200
        total_equity := 500
        total_liabilities := 500 }
    income_statement :=
      { operating_income := 150
        revenue := 900 } }

/-- a period with negative total assets (Variant B divergence input) -/
def negAssetsFD : FinancialData :=
  { balance_sheet := { total_assets := -1000, current_assets := 100 } }

/-- positive net income with negative operating cash flow -/
def aggrFD : FinancialData :=
  { income_statement := { net_income := 10 }
    cash_flow := { operating_cash_flow := -5 } }

/-- a period with revenue 50 -/
def rev50FD : FinancialData := { income_statement := { revenue := 50 } }

/-- a period with revenue 100 -/
def rev100FD : FinancialData := { income_statement := { revenue := 100 } }

/- ## Claim theorems -/

/-- C9: for the snapshot with total_assets=1000, current_assets=600,
current_liabilities=400, retained_earnings=200, operating_income=150,
total_equity=500, total_liabilities=500, revenue=900 and market_cap=0,
bankruptcy-model Variant A computes X1=0.2, X2=0.2, X3=0.15, X4=1.0
(book equity, since market cap is not positive), X5=0.9, Z=2.515, and
zone "Gray". -/
theorem c9_altman_scenario :
    (AltmanModel.calculate altmanScenarioFD 0).x1 = 2 / 10 ∧
    (AltmanModel.calculate altmanScenarioFD 0).x2 = 2 / 10 ∧
    (AltmanModel.calculate altmanScenarioFD 0).x3 = 15 / 100 ∧
    (AltmanModel.calculate altmanScenarioFD 0).x4 = 1 ∧
    (AltmanModel.calculate altmanScenarioFD 0).x5 = 9 / 10 ∧
    (AltmanModel.calculate altmanScenarioFD 0).z_score = 2515 / 1000 ∧
    (AltmanModel.calculate altmanScenarioFD 0).zone = "Gray" := by
  simp only [AltmanModel.calculate, AltmanModel.calculate_x1, AltmanModel.calculate_x2,
    AltmanModel.calculate_x3, AltmanModel.calculate_x4, AltmanModel.calculate_x5,
    AltmanModel.safe_divide, AltmanModel.get_zone, AltmanModel.SAFE_THRESHOLD,
    AltmanModel.DISTRESS_THRESHOLD, altmanScenarioFD, EPS]
  norm_num

/-- C5 (code bug): with snapshots ordered most-recent first, the
declining-revenue check compares in the wrong direction.  In the sequence
`[rev50FD, rev100FD]` (newest revenue 50, older revenue 100 — revenue
declined), the indicator does not trigger; in `[rev100FD, rev50FD]`
(revenue rose) it does. -/
theorem c5_declining_revenue_reversed :
    rev50FD.income_statement.revenue < rev100FD.income_statement.revenue ∧
    FraudTriangleModel.check_declining_revenue [rev50FD, rev100FD] = false ∧
    FraudTriangleModel.check_declining_revenue [rev100FD, rev50FD] = true := by
  decide

/-- C6 counterexample: `aggrFD` has net income 10 exceeding 1.5 × its
operating cash flow (−5), i.e. the claim's trigger condition holds for the
sequence `[aggrFD]`, yet the aggressive-accounting indicator does not
trigger (the source additionally requires both quantities positive). -/
theorem c6_counterexample :
    aggrFD.cash_flow.operating_cash_flow * (15 / 10) < aggrFD.income_statement.net_income ∧
    FraudTriangleModel.check_aggressive_accounting [aggrFD] = false ∧
    FraudTriangleModel.detect_rationalization_indicators [aggrFD] = [] := by
  have hA : FraudTriangleModel.check_aggressive_accounting [aggrFD] = false := by
    simp only [FraudTriangleModel.check_aggressive_accounting, aggrFD,
      List.any_cons, List.any_nil]
    norm_num
  have hB : FraudTriangleModel.check_boundary_cases [aggrFD] = false := by
    simp only [FraudTriangleModel.check_boundary_cases, aggrFD,
      IncomeStatement.net_margin, List.countP_cons, List.countP_nil]
    norm_num
  refine ⟨by norm_num [aggrFD], hA, ?_⟩
  simp [FraudTriangleModel.detect_rationalization_indicators, hA, hB]

/-- C6 (amended): the rationalization category's aggressive-accounting
indicator triggers iff some period has positive net income, positive
operating cash flow, and net income exceeding 1.5 × operating cash flow. -/
theorem c6_aggressive_accounting_iff (financials : List FinancialData) :
    (FraudTriangleModel.check_aggressive_accounting financials = true
      ↔ ∃ f ∈ financials, 0 < f.income_statement.net_income
          ∧ 0 < f.cash_flow.operating_cash_flow
          ∧ f.cash_flow.operating_cash_flow * (15 / 10) < f.income_statement.net_income) ∧
    ("Aggressive accounting (income >> cash flow)"
        ∈ FraudTriangleModel.detect_rationalization_indicators financials
      ↔ ∃ f ∈ financials, 0 < f.income_statement.net_income
          ∧ 0 < f.cash_flow.operating_cash_flow
          ∧ f.cash_flow.operating_cash_flow * (15 / 10) < f.income_statement.net_income) := by
  have hcheck : FraudTriangleModel.check_aggressive_accounting financials = true
      ↔ ∃ f ∈ financials, 0 < f.income_statement.net_income
          ∧ 0 < f.cash_flow.operating_cash_flow
          ∧ f.cash_flow.operating_cash_flow * (15 / 10) < f.income_statement.net_income := by
    unfold FraudTriangleModel.check_aggressive_accounting
    simp [List.any_eq_true, and_assoc]
  refine ⟨hcheck, ?_⟩
  unfold FraudTriangleModel.detect_rationalization_indicators
  rw [← hcheck]
  by_cases h1 : FraudTriangleModel.check_aggressive_accounting financials <;>
    by_cases h2 : FraudTriangleModel.check_boundary_cases financials <;>
      simp [h1, h2]

/-- C7: the earnings-manipulation model's safe division returns `num/denom`
whenever `|denom| ≥ 1e-10` and otherwise the declared default, without
failing; the ratio components' declared default is 1 (all seven indices
evaluate to the neutral value 1 on fully degenerate input) and the
total-accruals term's default is 0. -/
theorem c7_safe_divide :
    (∀ num denom default_val : ℚ, EPS ≤ |denom| →
      BeneishModel.safe_divide num denom default_val = num / denom) ∧
    (∀ num denom default_val : ℚ, |denom| < EPS →
      BeneishModel.safe_divide num denom default_val = default_val) ∧
    (∀ current : FinancialData, |current.balance_sheet.total_assets| < EPS →
      BeneishModel.calculate_tata current = 0) ∧
    (BeneishModel.calculate_dsri zeroFD zeroFD = 1 ∧
     BeneishModel.calculate_gmi zeroFD zeroFD = 1 ∧
     BeneishModel.calculate_aqi zeroFD zeroFD = 1 ∧
     BeneishModel.calculate_sgi zeroFD zeroFD = 1 ∧
     BeneishModel.calculate_depi zeroFD zeroFD = 1 ∧
     BeneishModel.calculate_sgai zeroFD zeroFD = 1 ∧
     BeneishModel.calculate_lvgi zeroFD zeroFD = 1 ∧
     BeneishModel.calculate_tata zeroFD = 0) := by
  refine ⟨?_, ?_, ?_, ?_⟩
  · intro num denom default_val h
    unfold BeneishModel.safe_divide
    rw [if_neg (not_lt.2 h)]
  · intro num denom default_val h
    unfold BeneishModel.safe_divide
    rw [if_pos h]
  · intro current h
    unfold BeneishModel.calculate_tata BeneishModel.safe_divide
    rw [if_pos h]
  · simp only [BeneishModel.calculate_dsri, BeneishModel.calculate_gmi,
      BeneishModel.calculate_aqi, BeneishModel.calculate_sgi, BeneishModel.calculate_depi,
      BeneishModel.calculate_sgai, BeneishModel.calculate_lvgi, BeneishModel.calculate_tata,
      BeneishModel.safe_divide, IncomeStatement.gross_margin, zeroFD, EPS]
    norm_num

/-- C7 witness: the safe-division theorem applied at concrete inputs. -/
theorem c7_witness :
    BeneishModel.safe_divide 3 2 1 = 3 / 2 ∧
    BeneishModel.safe_divide 3 0 1 = 1 ∧
    BeneishModel.calculate_tata zeroFD = 0 :=
  ⟨c7_safe_divide.1 3 2 1 (by norm_num [EPS]),
   c7_safe_divide.2.1 3 0 1 (by norm_num [EPS]),
   c7_safe_divide.2.2.1 zeroFD (by norm_num [zeroFD, EPS])⟩

/-- C3: for every combination of present/absent model results and every
assignment of non-negative model weights, the aggregator's composite risk
score lies in [0,1] (the final clamp guarantees it). -/
theorem c3_composite_in_unit_interval (w : RiskWeights) (result : AnalysisResult)
    (h1 : 0 ≤ w.beneish) (h2 : 0 ≤ w.altman) (h3 : 0 ≤ w.piotroski)
    (h4 : 0 ≤ w.fraud_triangle) (h5 : 0 ≤ w.benford) (h6 : 0 ≤ w.red_flags) :
    0 ≤ FraudAnalyzer.calculate_composite_score w result ∧
      FraudAnalyzer.calculate_composite_score w result ≤ 1 := by
  unfold FraudAnalyzer.calculate_composite_score
  exact ⟨le_min zero_le_one (le_max_left 0 _), min_le_left 1 _⟩

/-- C3 witness: the bound at the default weights and the empty result. -/
theorem c3_witness :
    0 ≤ FraudAnalyzer.calculate_composite_score {} {} ∧
      FraudAnalyzer.calculate_composite_score {} {} ≤ 1 :=
  c3_composite_in_unit_interval {} {} (by norm_num) (by norm_num) (by norm_num)
    (by norm_num) (by norm_num) (by norm_num)

/-- C4: the score-to-risk-level mapping is exhaustive (every score maps to
exactly one level, characterized by the fixed thresholds ≥0.8 critical,
≥0.6 high, ≥0.4 elevated, ≥0.2 moderate, else low) and monotone (a larger
score never gets a lower level). -/
theorem c4_risk_level_exhaustive_monotone :
    (∀ s : ℝ, 0 ≤ s → s ≤ 1 → ∃! level, FraudAnalyzer.determine_risk_level s = level) ∧
    (∀ s : ℝ, FraudAnalyzer.determine_risk_level s = .critical ↔ 8 / 10 ≤ s) ∧
    (∀ s : ℝ, FraudAnalyzer.determine_risk_level s = .high ↔ 6 / 10 ≤ s ∧ s < 8 / 10) ∧
    (∀ s : ℝ, FraudAnalyzer.determine_risk_level s = .elevated ↔ 4 / 10 ≤ s ∧ s < 6 / 10) ∧
    (∀ s : ℝ, FraudAnalyzer.determine_risk_level s = .moderate ↔ 2 / 10 ≤ s ∧ s < 4 / 10) ∧
    (∀ s : ℝ, FraudAnalyzer.determine_risk_level s = .low ↔ s < 2 / 10) ∧
    (∀ s1 s2 : ℝ, s1 ≤ s2 →
      (FraudAnalyzer.determine_risk_level s1).rank ≤ (FraudAnalyzer.determine_risk_level s2).rank) := by
  refine ⟨fun s _ _ => ⟨FraudAnalyzer.determine_risk_level s, rfl, fun y hy => hy.symm⟩,
    ?_, ?_, ?_, ?_, ?_, ?_⟩
  · intro s
    unfold FraudAnalyzer.determine_risk_level
    split_ifs with h1 h2 h3 h4 <;> simp_all <;> linarith
  · intro s
    unfold FraudAnalyzer.determine_risk_level
    split_ifs with h1 h2 h3 h4 <;> simp_all <;> intro h <;> linarith
  · intro s
    unfold FraudAnalyzer.determine_risk_level
    split_ifs with h1 h2 h3 h4 <;> simp_all <;> intro h <;> linarith
  · intro s
    unfold FraudAnalyzer.determine_risk_level
    split_ifs with h1 h2 h3 h4 <;> simp_all <;> intro h <;> linarith
  · intro s
    unfold FraudAnalyzer.determine_risk_level
    split_ifs with h1 h2 h3 h4 <;> simp_all <;> linarith
  · intro s1 s2 h
    unfold FraudAnalyzer.determine_risk_level
    split_ifs <;> simp_all [RiskLevel.rank] <;> linarith

/-- C4 witness: uniqueness at 0.5 and monotonicity at 0.3 ≤ 0.7. -/
theorem c4_witness :
    (∃! level, FraudAnalyzer.determine_risk_level (1 / 2) = level) ∧
    (FraudAnalyzer.determine_risk_level (3 / 10)).rank
      ≤ (FraudAnalyzer.determine_risk_level (7 / 10)).rank :=
  ⟨c4_risk_level_exhaustive_monotone.1 (1 / 2) (by norm_num) (by norm_num),
   c4_risk_level_exhaustive_monotone.2.2.2.2.2.2 (3 / 10) (7 / 10) (by norm_num)⟩

/-- Helper: the digit-distribution model's output on input with no valid
value (shared by the C10 theorem and the C1 counterexample). -/
theorem benford_all_invalid (values : List ℚ)
    (h : ∀ v ∈ values, BenfordModel.is_valid_value v = false) :
    (BenfordModel.calculate values).chi_square = 0 ∧
    (BenfordModel.calculate values).mad = 0 ∧
    (BenfordModel.calculate values).anomalies = [] ∧
    (BenfordModel.calculate values).is_suspicious = false ∧
    (BenfordModel.calculate values).actual_distribution = List.replicate 9 0 := by
  have hn : values.countP (fun v => BenfordModel.is_valid_value v) = 0 := by
    rw [List.countP_eq_zero]
    intro v hv
    simp [h v hv]
  have hd : ∀ v ∈ values, BenfordModel.extract_first_digit v = 0 := by
    intro v hv
    unfold BenfordModel.extract_first_digit
    rw [h v hv]
    simp
  have ht : BenfordModel.digit_total values = 0 := by
    unfold BenfordModel.digit_total
    rw [List.countP_eq_zero]
    intro v hv
    simp [hd v hv]
  have ha : BenfordModel.calculate_actual_distribution values = List.replicate 9 0 := by
    unfold BenfordModel.calculate_actual_distribution
    rw [ht]
    simp
  unfold BenfordModel.calculate
  rw [hn, ha]
  norm_num [BenfordModel.is_suspicious_mad, BenfordModel.MAD_MARGINALLY_ACCEPTABLE]

/-- C10: when no supplied value is valid (finite with absolute magnitude at
least 1 — over `ℚ`, simply `|v| ≥ 1`), the digit-distribution model returns
chi-square 0, MAD 0, no anomalies, `is_suspicious = false` and an all-zero
actual distribution, instead of failing. -/
theorem c10_benford_no_valid_values (values : List ℚ)
    (h : ∀ v ∈ values, BenfordModel.is_valid_value v = false) :
    (BenfordModel.calculate values).chi_square = 0 ∧
    (BenfordModel.calculate values).mad = 0 ∧
    (BenfordModel.calculate values).anomalies = [] ∧
    (BenfordModel.calculate values).is_suspicious = false ∧
    (BenfordModel.calculate values).actual_distribution = List.replicate 9 0 :=
  benford_all_invalid values h

/-- C10 witness: the theorem applied to a concrete, fully-invalid input. -/
theorem c10_witness :
    (BenfordModel.calculate [1 / 2, 0, -3 / 10]).chi_square = 0 ∧
    (BenfordModel.calculate [1 / 2, 0, -3 / 10]).mad = 0 ∧
    (BenfordModel.calculate [1 / 2, 0, -3 / 10]).anomalies = [] ∧
    (BenfordModel.calculate [1 / 2, 0, -3 / 10]).is_suspicious = false ∧
    (BenfordModel.calculate [1 / 2, 0, -3 / 10]).actual_distribution = List.replicate 9 0 :=
  c10_benford_no_valid_values [1 / 2, 0, -3 / 10] (by
    intro v hv
    have hv3 : v = 1 / 2 ∨ v = 0 ∨ v = -3 / 10 := by simpa using hv
    have habs : |v| < 1 := by
      rcases hv3 with h | h | h <;> subst h
      · rw [abs_of_pos (by norm_num)]; norm_num
      · simp
      · rw [abs_of_neg (by norm_num)]; norm_num
    unfold BenfordModel.is_valid_value
    simp only [decide_eq_false_iff_not, not_le]
    exact habs)

/-- C2 counterexample: the aggregator guard counts snapshots, not VALID
snapshots.  `[zeroFD, zeroFD]` contains zero valid snapshots (both carry
`is_valid = false`), yet the returned result has its per-model outputs
populated (`beneish` is present). -/
theorem c2_counterexample :
    ([zeroFD, zeroFD].countP (fun f => f.is_valid) = 0) ∧
    (FraudAnalyzer.analyze_financials {} [zeroFD, zeroFD]).beneish ≠ none := by
  constructor
  · simp [zeroFD]
  · simp [FraudAnalyzer.analyze_financials]

/-- C2 (amended): if fewer than two snapshots are supplied (their validity
flags are not consulted), the returned result has none of the five optional
per-model results present and the insufficient-data condition is signaled
to the caller.  All embedded model functions are total, so numeric edge
cases cannot raise across the model-to-aggregator boundary. -/
theorem c2_insufficient_data (w : RiskWeights) (financials : List FinancialData)
    (h : financials.length < 2) :
    (FraudAnalyzer.analyze_financials w financials).beneish = none ∧
    (FraudAnalyzer.analyze_financials w financials).altman = none ∧
    (FraudAnalyzer.analyze_financials w financials).piotroski = none ∧
    (FraudAnalyzer.analyze_financials w financials).fraud_triangle = none ∧
    (FraudAnalyzer.analyze_financials w financials).benford = none ∧
    FraudAnalyzer.analyze_error financials = some "Insufficient financial data for analysis" := by
  cases financials with
  | nil => exact ⟨rfl, rfl, rfl, rfl, rfl, rfl⟩
  | cons f0 t =>
    cases t with
    | nil => exact ⟨rfl, rfl, rfl, rfl, rfl, rfl⟩
    | cons f1 t2 => simp at h; omega

/-- C2 witness: the amended theorem applied to the empty sequence. -/
theorem c2_witness :
    (FraudAnalyzer.analyze_financials {} []).beneish = none ∧
    (FraudAnalyzer.analyze_financials {} []).altman = none ∧
    (FraudAnalyzer.analyze_financials {} []).piotroski = none ∧
    (FraudAnalyzer.analyze_financials {} []).fraud_triangle = none ∧
    (FraudAnalyzer.analyze_financials {} []).benford = none ∧
    FraudAnalyzer.analyze_error [] = some "Insufficient financial data for analysis" :=
  c2_insufficient_data {} [] (by simp)

/-- C8 counterexample: at `negAssetsFD` (total assets −1000, current
assets 100), Variant B's X1 is 0, while the claimed safe-division rule
(default 0, applied whenever `|denom| ≥ 1e-10`, including negative
denominators) yields −1/10 — the two disagree. -/
theorem c8_counterexample :
    (AltmanZPrimeModel.calculate negAssetsFD).x1 = 0 ∧
    AltmanModel.safe_divide
      (negAssetsFD.balance_sheet.current_assets - negAssetsFD.balance_sheet.current_liabilities)
      negAssetsFD.balance_sheet.total_assets 0 = -(1 / 10) ∧
    (0 : ℚ) ≠ -(1 / 10) := by
  refine ⟨?_, ?_, by norm_num⟩
  · simp only [AltmanZPrimeModel.calculate, negAssetsFD]
    norm_num
  · simp only [AltmanModel.safe_divide, negAssetsFD, EPS]
    norm_num

/-- C8 (amended): Variant A's five ratios use safe division with default 0
(`|d| < 1e-10 → 0`, otherwise ordinary division, including negative `d`);
Variant B instead guards each ratio with a strict positivity test on the
denominator: the ratio is ordinary division when the denominator is
positive and 0 otherwise, which differs from the safe-division rule for
negative denominators. -/
theorem c8_safe_division_variants :
    (∀ num denom : ℚ, EPS ≤ |denom| → AltmanModel.safe_divide num denom 0 = num / denom) ∧
    (∀ num denom : ℚ, |denom| < EPS → AltmanModel.safe_divide num denom 0 = 0) ∧
    (∀ data : FinancialData, ∀ market_cap : ℚ,
      (AltmanModel.calculate data market_cap).x1
        = AltmanModel.safe_divide
            (data.balance_sheet.current_assets - data.balance_sheet.current_liabilities)
            data.balance_sheet.total_assets 0 ∧
      (AltmanModel.calculate data market_cap).x2
        = AltmanModel.safe_divide data.balance_sheet.retained_earnings
            data.balance_sheet.total_assets 0 ∧
      (AltmanModel.calculate data market_cap).x3
        = AltmanModel.safe_divide data.income_statement.operating_income
            data.balance_sheet.total_assets 0 ∧
      (AltmanModel.calculate data market_cap).x4
        = AltmanModel.safe_divide
            (if market_cap > 0 then market_cap else data.balance_sheet.total_equity)
            data.balance_sheet.total_liabilities 0 ∧
      (AltmanModel.calculate data market_cap).x5
        = AltmanModel.safe_divide data.income_statement.revenue
            data.balance_sheet.total_assets 0) ∧
    (∀ data : FinancialData,
      (0 < data.balance_sheet.total_assets →
        (AltmanZPrimeModel.calculate data).x1
          = (data.balance_sheet.current_assets - data.balance_sheet.current_liabilities)
              / data.balance_sheet.total_assets) ∧
      (data.balance_sheet.total_assets ≤ 0 → (AltmanZPrimeModel.calculate data).x1 = 0) ∧
      (0 < data.balance_sheet.total_liabilities →
        (AltmanZPrimeModel.calculate data).x4
          = data.balance_sheet.total_equity / data.balance_sheet.total_liabilities) ∧
      (data.balance_sheet.total_liabilities ≤ 0 → (AltmanZPrimeModel.calculate data).x4 = 0)) := by
  refine ⟨?_, ?_, fun data market_cap => ⟨rfl, rfl, rfl, rfl, rfl⟩, ?_⟩
  · intro num denom h
    unfold AltmanModel.safe_divide
    rw [if_neg (not_lt.2 h)]
  · intro num denom h
    unfold AltmanModel.safe_divide
    rw [if_pos h]
  · intro data
    refine ⟨fun h => ?_, fun h => ?_, fun h => ?_, fun h => ?_⟩
    · simp only [AltmanZPrimeModel.calculate]
      rw [if_pos h]
    · simp only [AltmanZPrimeModel.calculate]
      rw [if_neg (not_lt.2 h)]
    · simp only [AltmanZPrimeModel.calculate]
      rw [if_pos h]
    · simp only [AltmanZPrimeModel.calculate]
      rw [if_neg (not_lt.2 h)]

/-- C8 witness: the amended theorem applied at concrete inputs, covering a
negative denominator, a zero denominator, and both Variant-B guard
branches. -/
theorem c8_witness :
    AltmanModel.safe_divide 100 (-1000) 0 = 100 / (-1000) ∧
    AltmanModel.safe_divide 5 0 0 = 0 ∧
    (AltmanZPrimeModel.calculate negAssetsFD).x1 = 0 ∧
    (AltmanZPrimeModel.calculate altmanScenarioFD).x4
      = altmanScenarioFD.balance_sheet.total_equity
          / altmanScenarioFD.balance_sheet.total_liabilities :=
  ⟨c8_safe_division_variants.1 100 (-1000) (by norm_num [EPS]),
   c8_safe_division_variants.2.1 5 0 (by norm_num [EPS]),
   (c8_safe_division_variants.2.2.2 negAssetsFD).2.1 (by norm_num [negAssetsFD]),
   (c8_safe_division_variants.2.2.2 altmanScenarioFD).2.2.1 (by norm_num [altmanScenarioFD])⟩

/-- C1 counterexample: at the two-snapshot analysis of `[zeroFD, zeroFD]`
with weights selecting only the digit-distribution model, the computed
composite score is 0.2 (the aggregator's Benford term is
`is_suspicious ? 0.8 : 0.2`), while the claimed formula — Benford
contribution `clamp(MAD/0.02, 0, 1)` with `MAD = 0` — yields 0. -/
theorem c1_counterexample :
    2 ≤ ([zeroFD, zeroFD] : List FinancialData).length ∧
    (FraudAnalyzer.analyze_financials benfordOnlyWeights [zeroFD, zeroFD]).composite_risk_score
      ≠ spec_composite_score_mad benfordOnlyWeights
          (FraudAnalyzer.analyze_financials benfordOnlyWeights [zeroFD, zeroFD]) := by
  have hvals : FraudAnalyzer.extract_all_values [zeroFD, zeroFD]
      = [0, 0, 0, 0, 0, 0, 0, 0, 0, 0] := by
    simp [FraudAnalyzer.extract_all_values, zeroFD]
  have hball := benford_all_invalid [0, 0, 0, 0, 0, 0, 0, 0, 0, 0] (by
    intro v hv
    have hv0 : v = 0 := by simpa using hv
    subst hv0
    simp [BenfordModel.is_valid_value])
  refine ⟨by simp, ?_⟩
  simp only [FraudAnalyzer.analyze_financials, FraudAnalyzer.calculate_composite_score,
    FraudAnalyzer.composite_sum, spec_composite_score_mad, hvals, benfordOnlyWeights]
  rw [hball.2.2.2.1, hball.2.1]
  norm_num [BenfordModel.mad_to_risk, clampQ]

/-- C1 (amended): for every analysis of at least two snapshots, the
composite risk score equals the sum over the five models (which all ran)
of weight × risk contribution, except that the digit-distribution model
contributes 0.8 when suspicious and 0.2 otherwise (not
`clamp(MAD/0.02,0,1)`, which the aggregator never consults), plus the
red-flag weight × min(1, flag_count/5), clamped to [0,1]. -/
theorem c1_composite_formula (w : RiskWeights) (f0 f1 : FinancialData)
    (rest : List FinancialData) :
    (FraudAnalyzer.analyze_financials w (f0 :: f1 :: rest)).composite_risk_score =
      min 1 (max 0 (
        (w.beneish : ℝ) * (BeneishModel.calculate f0 f1).risk_score
        + (w.altman : ℝ) * ((AltmanModel.calculate f0 0).risk_score : ℝ)
        + (w.piotroski : ℝ) * ((PiotroskiModel.calculate f0 f1).risk_score : ℝ)
        + (w.fraud_triangle : ℝ)
            * ((FraudTriangleModel.calculate (f0 :: f1 :: rest)).overall_risk : ℝ)
        + (w.benford : ℝ)
            * (if (BenfordModel.calculate
                (FraudAnalyzer.extract_all_values (f0 :: f1 :: rest))).is_suspicious
               then (8 : ℝ) / 10 else 2 / 10)
        + (w.red_flags : ℝ)
            * min 1 (((FraudAnalyzer.analyze_financials w (f0 :: f1 :: rest)).red_flags.length : ℝ)
                / 5))) := by
  simp only [FraudAnalyzer.analyze_financials, FraudAnalyzer.calculate_composite_score,
    FraudAnalyzer.composite_sum, zero_add]

end SecAnalyzer
